import Mathlib

/-!
Verification of the HT-class licence and stamp-duty calculator.

The repository ships a single pure calculation function `calculate`
(src/src/App.tsx, lines 53-95) plus an earlier identical copy
(src/unnamed/part_000, lines 61-101).  The arithmetic is done in integer
minor units (cents); JavaScript `Math.round x` is `⌊x + 1/2⌋`, modelled
here as `jsRound` on exact rationals.  Monetary values are rationals,
axle counts integers.
-/

namespace HTAxleCalc

/-- Inspection choice of the calculator input, from the union type
`"none" | "initial" | "reinspection"` in src/src/App.tsx line 30. -/
inductive InspectionType where
  | noInspection
  | initial
  | reinspection
deriving DecidableEq, Repr

/-- Rate configuration record, from the `DEFAULTS` object shape
(src/src/App.tsx lines 9-21). -/
structure Config where
  gstRate : ℚ
  dutyRate : ℚ
  dutyCap : ℚ
  licencePerAxle : ℚ
  recordingFee : ℚ
  plateFee : ℚ
  insuranceBase : ℚ
  insuranceGstRate : ℚ
  insuranceDutyRate : ℚ
  inspectionInitial : ℚ
  inspectionReinspection : ℚ
deriving DecidableEq, Repr

/-- The shipped default configuration (src/src/App.tsx lines 9-21). -/
def DEFAULTS : Config where
  gstRate := 10/100
  dutyRate := 3/100
  dutyCap := 12000
  licencePerAxle := 572
  recordingFee := 1045/100
  plateFee := 32
  insuranceBase := 1459/100
  insuranceGstRate := 10/100
  insuranceDutyRate := 11/100
  inspectionInitial := 284
  inspectionReinspection := 172

/-- Calculation input record (src/src/App.tsx lines 23-31). -/
structure CalcInput where
  priceExGst : ℚ
  axles : ℤ
  includeGstInDuty : Bool
  applyDutyCap : Bool
  firstTimeLicensing : Bool
  includeInsuranceLines : Bool
  inspectionType : InspectionType
deriving DecidableEq, Repr

/-- Calculation output record (src/src/App.tsx lines 33-46). -/
structure CalcOutput where
  gst : ℚ
  dutiable : ℚ
  duty : ℚ
  licenceFee : ℚ
  insuranceBase : ℚ
  insuranceGst : ℚ
  insuranceDuty : ℚ
  recordingFee : ℚ
  plateFee : ℚ
  inspectionFee : ℚ
  roadRegoSubtotal : ℚ
  totalOnRoad : ℚ
deriving DecidableEq, Repr

/-- JavaScript `Math.round`: round half toward positive infinity. -/
def jsRound (x : ℚ) : ℤ := ⌊x + 1/2⌋

/-- Source: `const toCents = (aud) => Math.round(aud * 100)` (src/src/App.tsx line 48). -/
def toCents (aud : ℚ) : ℤ := jsRound (aud * 100)

/-- Source: `const fromCents = (cents) => cents / 100` (src/src/App.tsx line 49). -/
def fromCents (cents : ℤ) : ℚ := (cents : ℚ) / 100

/-- Source: `const P = toCents(input.priceExGst)` (line 54). -/
def centsP (input : CalcInput) : ℤ := toCents input.priceExGst

/-- Source: `const gst = input.includeGstInDuty ? Math.round(P * cfg.gstRate) : 0` (line 55). -/
def centsGst (input : CalcInput) (cfg : Config) : ℤ :=
  if input.includeGstInDuty then jsRound ((centsP input : ℚ) * cfg.gstRate) else 0

/-- Source: `const dutiable = P + gst` (line 56). -/
def centsDutiable (input : CalcInput) (cfg : Config) : ℤ :=
  centsP input + centsGst input cfg

/-- Source: `const dutyRaw = Math.round(dutiable * cfg.dutyRate)` (line 57). -/
def centsDutyRaw (input : CalcInput) (cfg : Config) : ℤ :=
  jsRound ((centsDutiable input cfg : ℚ) * cfg.dutyRate)

/-- Source: `const dutyCapCents = toCents(cfg.dutyCap)` (line 58). -/
def dutyCapCents (cfg : Config) : ℤ := toCents cfg.dutyCap

/-- Source: `const duty = input.applyDutyCap ? Math.min(dutyRaw, dutyCapCents) : dutyRaw` (line 59). -/
def centsDuty (input : CalcInput) (cfg : Config) : ℤ :=
  if input.applyDutyCap then min (centsDutyRaw input cfg) (dutyCapCents cfg)
  else centsDutyRaw input cfg

/-- Source: `const licenceFee = toCents(cfg.licencePerAxle * input.axles)` (line 61). -/
def centsLicenceFee (input : CalcInput) (cfg : Config) : ℤ :=
  toCents (cfg.licencePerAxle * (input.axles : ℚ))

/-- Source: `const insuranceBase = input.includeInsuranceLines ? toCents(cfg.insuranceBase) : 0` (line 63). -/
def centsInsuranceBase (input : CalcInput) (cfg : Config) : ℤ :=
  if input.includeInsuranceLines then toCents cfg.insuranceBase else 0

/-- Source: `const insuranceGst = input.includeInsuranceLines ? Math.round(insuranceBase * cfg.insuranceGstRate) : 0` (line 64). -/
def centsInsuranceGst (input : CalcInput) (cfg : Config) : ℤ :=
  if input.includeInsuranceLines then
    jsRound ((centsInsuranceBase input cfg : ℚ) * cfg.insuranceGstRate)
  else 0

/-- Source: `const insuranceDuty = input.includeInsuranceLines ? Math.round(insuranceBase * cfg.insuranceDutyRate) : 0` (line 65). -/
def centsInsuranceDuty (input : CalcInput) (cfg : Config) : ℤ :=
  if input.includeInsuranceLines then
    jsRound ((centsInsuranceBase input cfg : ℚ) * cfg.insuranceDutyRate)
  else 0

/-- Source: `const recordingFee = input.firstTimeLicensing ? toCents(cfg.recordingFee) : 0` (line 67). -/
def centsRecordingFee (input : CalcInput) (cfg : Config) : ℤ :=
  if input.firstTimeLicensing then toCents cfg.recordingFee else 0

/-- Source: `const plateFee = input.firstTimeLicensing ? toCents(cfg.plateFee) : 0` (line 68). -/
def centsPlateFee (input : CalcInput) (cfg : Config) : ℤ :=
  if input.firstTimeLicensing then toCents cfg.plateFee else 0

/-- Chained conditionals for the inspection fee (lines 70-75): the fee for
"initial", the fee for "reinspection", otherwise 0. -/
def centsInspectionFee (input : CalcInput) (cfg : Config) : ℤ :=
  match input.inspectionType with
  | InspectionType.initial => toCents cfg.inspectionInitial
  | InspectionType.reinspection => toCents cfg.inspectionReinspection
  | InspectionType.noInspection => 0

/-- Source: `const roadRegoSubtotal = licenceFee + insuranceBase + insuranceGst + insuranceDuty + recordingFee + plateFee + inspectionFee` (lines 77-78). -/
def centsRoadRegoSubtotal (input : CalcInput) (cfg : Config) : ℤ :=
  centsLicenceFee input cfg + centsInsuranceBase input cfg + centsInsuranceGst input cfg +
    centsInsuranceDuty input cfg + centsRecordingFee input cfg + centsPlateFee input cfg +
    centsInspectionFee input cfg

/-- Source: `const totalOnRoad = roadRegoSubtotal + duty` (line 79). -/
def centsTotalOnRoad (input : CalcInput) (cfg : Config) : ℤ :=
  centsRoadRegoSubtotal input cfg + centsDuty input cfg

/-- Source: `export function calculate(input, cfg = DEFAULTS): CalcOutput`
(src/src/App.tsx lines 53-95): each returned field is the corresponding
minor-unit quantity converted back via `fromCents` (lines 81-94). -/
def calculate (input : CalcInput) (cfg : Config) : CalcOutput where
  gst := fromCents (centsGst input cfg)
  dutiable := fromCents (centsDutiable input cfg)
  duty := fromCents (centsDuty input cfg)
  licenceFee := fromCents (centsLicenceFee input cfg)
  insuranceBase := fromCents (centsInsuranceBase input cfg)
  insuranceGst := fromCents (centsInsuranceGst input cfg)
  insuranceDuty := fromCents (centsInsuranceDuty input cfg)
  recordingFee := fromCents (centsRecordingFee input cfg)
  plateFee := fromCents (centsPlateFee input cfg)
  inspectionFee := fromCents (centsInspectionFee input cfg)
  roadRegoSubtotal := fromCents (centsRoadRegoSubtotal input cfg)
  totalOnRoad := fromCents (centsTotalOnRoad input cfg)

namespace Legacy

/-- The default configuration of the earlier copy
(src/unnamed/part_000 lines 13-27); field values are identical. -/
def DEFAULTS : Config where
  gstRate := 10/100
  dutyRate := 3/100
  dutyCap := 12000
  licencePerAxle := 572
  recordingFee := 1045/100
  plateFee := 32
  insuranceBase := 1459/100
  insuranceGstRate := 10/100
  insuranceDutyRate := 11/100
  inspectionInitial := 284
  inspectionReinspection := 172

/-- The earlier `calculate` (src/unnamed/part_000 lines 61-101),
transliterated with its local bindings kept as `let`s in source order. -/
def calculate (input : CalcInput) (cfg : Config) : CalcOutput :=
  let P := toCents input.priceExGst
  let gst := if input.includeGstInDuty then jsRound ((P : ℚ) * cfg.gstRate) else 0
  let dutiable := P + gst
  let dutyRaw := jsRound ((dutiable : ℚ) * cfg.dutyRate)
  let dutyCapC := toCents cfg.dutyCap
  let duty := if input.applyDutyCap then min dutyRaw dutyCapC else dutyRaw
  let licenceFee := toCents (cfg.licencePerAxle * (input.axles : ℚ))
  let insuranceBase := if input.includeInsuranceLines then toCents cfg.insuranceBase else 0
  let insuranceGst :=
    if input.includeInsuranceLines then jsRound ((insuranceBase : ℚ) * cfg.insuranceGstRate) else 0
  let insuranceDuty :=
    if input.includeInsuranceLines then jsRound ((insuranceBase : ℚ) * cfg.insuranceDutyRate) else 0
  let recordingFee := if input.firstTimeLicensing then toCents cfg.recordingFee else 0
  let plateFee := if input.firstTimeLicensing then toCents cfg.plateFee else 0
  let inspectionFee :=
    match input.inspectionType with
    | InspectionType.initial => toCents cfg.inspectionInitial
    | InspectionType.reinspection => toCents cfg.inspectionReinspection
    | InspectionType.noInspection => 0
  let roadRegoSubtotal :=
    licenceFee + insuranceBase + insuranceGst + insuranceDuty + recordingFee + plateFee +
      inspectionFee
  let totalOnRoad := roadRegoSubtotal + duty
  { gst := fromCents gst
    dutiable := fromCents dutiable
    duty := fromCents duty
    licenceFee := fromCents licenceFee
    insuranceBase := fromCents insuranceBase
    insuranceGst := fromCents insuranceGst
    insuranceDuty := fromCents insuranceDuty
    recordingFee := fromCents recordingFee
    plateFee := fromCents plateFee
    inspectionFee := fromCents inspectionFee
    roadRegoSubtotal := fromCents roadRegoSubtotal
    totalOnRoad := fromCents totalOnRoad }

end Legacy

/-! ### Helper lemmas -/

/-- JavaScript rounding of a non-negative quantity is non-negative. -/
theorem jsRound_nonneg (x : ℚ) (hx : 0 ≤ x) : 0 ≤ jsRound x :=
  Int.floor_nonneg.mpr (by linarith)

/-- Minor-unit conversion of a non-negative amount is non-negative. -/
theorem toCents_nonneg (a : ℚ) (ha : 0 ≤ a) : 0 ≤ toCents a :=
  jsRound_nonneg _ (by positivity)

/-- Converting a non-negative cent count back to major units is non-negative. -/
theorem fromCents_nonneg (c : ℤ) (hc : 0 ≤ c) : 0 ≤ fromCents c := by
  unfold fromCents
  positivity

/-- JavaScript rounding is the identity on integers. -/
theorem jsRound_intCast (n : ℤ) : jsRound (n : ℚ) = n := by
  unfold jsRound
  rw [add_comm, Int.floor_add_int]
  norm_num

/-- Converting cents back to major units is monotone. -/
theorem fromCents_mono {a b : ℤ} (h : a ≤ b) : fromCents a ≤ fromCents b := by
  unfold fromCents
  have hq : (a : ℚ) ≤ (b : ℚ) := by exact_mod_cast h
  linarith

/-- The licence fee formula the specification text states: the per-axle
amount is first converted to minor units on its own, then multiplied by
the axle count and rounded.  (The source instead converts the product
`licencePerAxle * axles` to minor units in one step.) -/
def specLicenceFeeCents (input : CalcInput) (cfg : Config) : ℤ :=
  jsRound ((toCents cfg.licencePerAxle : ℚ) * (input.axles : ℚ))

/-! ### Claim theorems -/

/-- Claim C1: for every input and rate configuration, the output of
`calculate` satisfies `roadRegoSubtotal = licenceFee + insuranceBase +
insuranceGst + insuranceDuty + recordingFee + plateFee + inspectionFee`
and `totalOnRoad = roadRegoSubtotal + duty`, exactly. -/
theorem calculate_totals_invariant (i : CalcInput) (c : Config) :
    (calculate i c).roadRegoSubtotal =
      (calculate i c).licenceFee + (calculate i c).insuranceBase + (calculate i c).insuranceGst +
        (calculate i c).insuranceDuty + (calculate i c).recordingFee + (calculate i c).plateFee +
        (calculate i c).inspectionFee ∧
    (calculate i c).totalOnRoad = (calculate i c).roadRegoSubtotal + (calculate i c).duty := by
  constructor <;>
    · simp only [calculate, centsRoadRegoSubtotal, centsTotalOnRoad, fromCents]
      push_cast
      ring

/-- Claim C2: `calculate` computes the duty chain as `P = toCents priceExGst`;
`gst = round(P * gstRate)` if `includeGstInDuty`, else `0`; `dutiable = P + gst`;
`dutyRaw = round(dutiable * dutyRate)`; and the output fields `gst` and
`dutiable` are these quantities in major units. -/
theorem calculate_duty_chain (i : CalcInput) (c : Config) :
    centsP i = toCents i.priceExGst ∧
    centsGst i c =
      (if i.includeGstInDuty then jsRound ((toCents i.priceExGst : ℚ) * c.gstRate) else 0) ∧
    centsDutiable i c = centsP i + centsGst i c ∧
    centsDutyRaw i c = jsRound ((centsDutiable i c : ℚ) * c.dutyRate) ∧
    (calculate i c).gst = fromCents (centsGst i c) ∧
    (calculate i c).dutiable = fromCents (centsDutiable i c) :=
  ⟨rfl, rfl, rfl, rfl, rfl, rfl⟩

/-- Claim C3: with `applyDutyCap` set, the duty in minor units is the
inclusive minimum of `dutyRaw` and the cap converted to minor units, hence
never exceeds the cap; under the shipped configuration the major-unit duty
never exceeds the major-unit cap.  Without the flag the duty is `dutyRaw`. -/
theorem calculate_duty_cap (i : CalcInput) (c : Config) :
    centsDuty i c =
      (if i.applyDutyCap then min (centsDutyRaw i c) (dutyCapCents c) else centsDutyRaw i c) ∧
    (calculate i c).duty = fromCents (centsDuty i c) ∧
    (i.applyDutyCap = false → centsDuty i c = centsDutyRaw i c) ∧
    (i.applyDutyCap = true →
      centsDuty i c ≤ dutyCapCents c ∧
      (centsDutyRaw i c = dutyCapCents c → centsDuty i c = dutyCapCents c) ∧
      (calculate i DEFAULTS).duty ≤ DEFAULTS.dutyCap) := by
  refine ⟨rfl, rfl, fun h => ?_, fun h => ?_⟩
  · simp [centsDuty, h]
  · have hmin : centsDuty i c = min (centsDutyRaw i c) (dutyCapCents c) := by
      simp [centsDuty, h]
    have hminD : centsDuty i DEFAULTS = min (centsDutyRaw i DEFAULTS) (dutyCapCents DEFAULTS) := by
      simp [centsDuty, h]
    refine ⟨hmin ▸ min_le_right _ _, fun hEq => by rw [hmin, hEq, min_self], ?_⟩
    have hle : centsDuty i DEFAULTS ≤ dutyCapCents DEFAULTS := hminD ▸ min_le_right _ _
    have hcap : fromCents (dutyCapCents DEFAULTS) = DEFAULTS.dutyCap := by
      norm_num [fromCents, dutyCapCents, toCents, jsRound, DEFAULTS]
    calc (calculate i DEFAULTS).duty = fromCents (centsDuty i DEFAULTS) := rfl
      _ ≤ fromCents (dutyCapCents DEFAULTS) := fromCents_mono hle
      _ = DEFAULTS.dutyCap := hcap

/-- Witness for claim C3 at a price whose raw duty hits the cap exactly:
400000 with GST excluded gives dutyRaw of exactly 1200000 cents. -/
theorem calculate_duty_cap_witness :
    centsDuty
        { priceExGst := 400000, axles := 1, includeGstInDuty := false, applyDutyCap := true,
          firstTimeLicensing := true, includeInsuranceLines := false,
          inspectionType := InspectionType.noInspection } DEFAULTS =
      dutyCapCents DEFAULTS ∧
    (calculate
        { priceExGst := 400000, axles := 1, includeGstInDuty := false, applyDutyCap := true,
          firstTimeLicensing := true, includeInsuranceLines := false,
          inspectionType := InspectionType.noInspection } DEFAULTS).duty ≤ DEFAULTS.dutyCap := by
  have h := (calculate_duty_cap
    { priceExGst := 400000, axles := 1, includeGstInDuty := false, applyDutyCap := true,
      firstTimeLicensing := true, includeInsuranceLines := false,
      inspectionType := InspectionType.noInspection } DEFAULTS).2.2.2 rfl
  refine ⟨h.2.1 ?_, h.2.2⟩
  norm_num [centsDutyRaw, centsDutiable, centsGst, centsP, dutyCapCents, toCents, jsRound, DEFAULTS]

/-- Counterexample to claim C4 as stated: with the per-axle amount set to
1/250 (0.004 of a major unit) and 3 axles, the code yields 1 cent while the
formula of the claim (convert the per-axle amount to minor units first, then
multiply and round) yields 0 cents. -/
theorem licence_fee_spec_formula_counterexample :
    ¬ (centsLicenceFee
          { priceExGst := 0, axles := 3, includeGstInDuty := true, applyDutyCap := true,
            firstTimeLicensing := true, includeInsuranceLines := false,
            inspectionType := InspectionType.noInspection }
          { DEFAULTS with licencePerAxle := 1/250 } =
        specLicenceFeeCents
          { priceExGst := 0, axles := 3, includeGstInDuty := true, applyDutyCap := true,
            firstTimeLicensing := true, includeInsuranceLines := false,
            inspectionType := InspectionType.noInspection }
          { DEFAULTS with licencePerAxle := 1/250 }) := by
  norm_num [centsLicenceFee, specLicenceFeeCents, toCents, jsRound, DEFAULTS]

/-- Claim C4 (amended): the licence fee in minor units is the product
`licencePerAxle * axles` converted to minor units with a single defensive
rounding; whenever the configured per-axle amount is an exact minor-unit
multiple (as in the shipped configuration), this agrees with the
specification formula that converts the per-axle amount first. -/
theorem calculate_licence_fee (i : CalcInput) (c : Config) :
    centsLicenceFee i c = toCents (c.licencePerAxle * (i.axles : ℚ)) ∧
    (calculate i c).licenceFee = fromCents (centsLicenceFee i c) ∧
    (∀ n : ℤ, c.licencePerAxle * 100 = (n : ℚ) →
      centsLicenceFee i c = specLicenceFeeCents i c) := by
  refine ⟨rfl, rfl, fun n hn => ?_⟩
  have hper : toCents c.licencePerAxle = n := by
    unfold toCents
    rw [hn, jsRound_intCast]
  have hprod : c.licencePerAxle * (i.axles : ℚ) * 100 = ((n * i.axles : ℤ) : ℚ) := by
    push_cast
    linear_combination (i.axles : ℚ) * hn
  have hcast : (n : ℚ) * (i.axles : ℚ) = ((n * i.axles : ℤ) : ℚ) := by
    push_cast
    ring
  unfold centsLicenceFee specLicenceFeeCents
  rw [hper, hcast, jsRound_intCast]
  unfold toCents
  rw [hprod, jsRound_intCast]

/-- Witness for claim C4 (amended) at the shipped configuration, whose
per-axle amount 572 is the exact minor-unit multiple 57200. -/
theorem calculate_licence_fee_witness :
    centsLicenceFee
        { priceExGst := 75000, axles := 3, includeGstInDuty := true, applyDutyCap := true,
          firstTimeLicensing := true, includeInsuranceLines := false,
          inspectionType := InspectionType.noInspection } DEFAULTS =
      specLicenceFeeCents
        { priceExGst := 75000, axles := 3, includeGstInDuty := true, applyDutyCap := true,
          firstTimeLicensing := true, includeInsuranceLines := false,
          inspectionType := InspectionType.noInspection } DEFAULTS :=
  (calculate_licence_fee
      { priceExGst := 75000, axles := 3, includeGstInDuty := true, applyDutyCap := true,
        firstTimeLicensing := true, includeInsuranceLines := false,
        inspectionType := InspectionType.noInspection } DEFAULTS).2.2 57200
    (by norm_num [DEFAULTS])

/-- Claim C5: with `includeInsuranceLines` the insurance base is the
configured amount in minor units and the two derived lines are rounded
products of it; without the flag all three output fields are zero. -/
theorem calculate_insurance_lines (i : CalcInput) (c : Config) :
    (calculate i c).insuranceBase = fromCents (centsInsuranceBase i c) ∧
    (calculate i c).insuranceGst = fromCents (centsInsuranceGst i c) ∧
    (calculate i c).insuranceDuty = fromCents (centsInsuranceDuty i c) ∧
    (i.includeInsuranceLines = true →
      centsInsuranceBase i c = toCents c.insuranceBase ∧
      centsInsuranceGst i c = jsRound ((centsInsuranceBase i c : ℚ) * c.insuranceGstRate) ∧
      centsInsuranceDuty i c = jsRound ((centsInsuranceBase i c : ℚ) * c.insuranceDutyRate)) ∧
    (i.includeInsuranceLines = false →
      (calculate i c).insuranceBase = 0 ∧ (calculate i c).insuranceGst = 0 ∧
      (calculate i c).insuranceDuty = 0) := by
  refine ⟨rfl, rfl, rfl, fun h => ?_, fun h => ?_⟩
  · simp [centsInsuranceBase, centsInsuranceGst, centsInsuranceDuty, h]
  · simp [calculate, centsInsuranceBase, centsInsuranceGst, centsInsuranceDuty, h, fromCents]

/-- Witness for claim C5 with the insurance toggle on. -/
theorem calculate_insurance_lines_witness :
    centsInsuranceBase
        { priceExGst := 0, axles := 3, includeGstInDuty := true, applyDutyCap := true,
          firstTimeLicensing := true, includeInsuranceLines := true,
          inspectionType := InspectionType.initial } DEFAULTS =
      toCents DEFAULTS.insuranceBase ∧
    centsInsuranceGst
        { priceExGst := 0, axles := 3, includeGstInDuty := true, applyDutyCap := true,
          firstTimeLicensing := true, includeInsuranceLines := true,
          inspectionType := InspectionType.initial } DEFAULTS =
      jsRound ((centsInsuranceBase
          { priceExGst := 0, axles := 3, includeGstInDuty := true, applyDutyCap := true,
            firstTimeLicensing := true, includeInsuranceLines := true,
            inspectionType := InspectionType.initial } DEFAULTS : ℚ) *
        DEFAULTS.insuranceGstRate) ∧
    centsInsuranceDuty
        { priceExGst := 0, axles := 3, includeGstInDuty := true, applyDutyCap := true,
          firstTimeLicensing := true, includeInsuranceLines := true,
          inspectionType := InspectionType.initial } DEFAULTS =
      jsRound ((centsInsuranceBase
          { priceExGst := 0, axles := 3, includeGstInDuty := true, applyDutyCap := true,
            firstTimeLicensing := true, includeInsuranceLines := true,
            inspectionType := InspectionType.initial } DEFAULTS : ℚ) *
        DEFAULTS.insuranceDutyRate) :=
  (calculate_insurance_lines
      { priceExGst := 0, axles := 3, includeGstInDuty := true, applyDutyCap := true,
        firstTimeLicensing := true, includeInsuranceLines := true,
        inspectionType := InspectionType.initial } DEFAULTS).2.2.2.1 rfl

/-- Claim C6: disabling `firstTimeLicensing` zeroes the recording and plate
fees, enabling it charges the configured amounts; the inspection fee is the
single configured amount selected by the inspection state, zero for no
inspection — the three states are mutually exclusive and never summed. -/
theorem calculate_flag_fees (i : CalcInput) (c : Config) :
    (i.firstTimeLicensing = false →
      (calculate i c).recordingFee = 0 ∧ (calculate i c).plateFee = 0) ∧
    (i.firstTimeLicensing = true →
      centsRecordingFee i c = toCents c.recordingFee ∧
      centsPlateFee i c = toCents c.plateFee) ∧
    (i.inspectionType = InspectionType.noInspection → (calculate i c).inspectionFee = 0) ∧
    (i.inspectionType = InspectionType.initial →
      centsInspectionFee i c = toCents c.inspectionInitial) ∧
    (i.inspectionType = InspectionType.reinspection →
      centsInspectionFee i c = toCents c.inspectionReinspection) := by
  refine ⟨fun h => ?_, fun h => ?_, fun h => ?_, fun h => ?_, fun h => ?_⟩ <;>
    simp [calculate, centsRecordingFee, centsPlateFee, centsInspectionFee, h, fromCents]

/-- Witness for claim C6 with first-time licensing off and no inspection. -/
theorem calculate_flag_fees_witness :
    ((calculate
        { priceExGst := 75000, axles := 3, includeGstInDuty := true, applyDutyCap := true,
          firstTimeLicensing := false, includeInsuranceLines := true,
          inspectionType := InspectionType.noInspection } DEFAULTS).recordingFee = 0 ∧
      (calculate
        { priceExGst := 75000, axles := 3, includeGstInDuty := true, applyDutyCap := true,
          firstTimeLicensing := false, includeInsuranceLines := true,
          inspectionType := InspectionType.noInspection } DEFAULTS).plateFee = 0) ∧
    (calculate
        { priceExGst := 75000, axles := 3, includeGstInDuty := true, applyDutyCap := true,
          firstTimeLicensing := false, includeInsuranceLines := true,
          inspectionType := InspectionType.noInspection } DEFAULTS).inspectionFee = 0 :=
  ⟨(calculate_flag_fees
      { priceExGst := 75000, axles := 3, includeGstInDuty := true, applyDutyCap := true,
        firstTimeLicensing := false, includeInsuranceLines := true,
        inspectionType := InspectionType.noInspection } DEFAULTS).1 rfl,
    (calculate_flag_fees
      { priceExGst := 75000, axles := 3, includeGstInDuty := true, applyDutyCap := true,
        firstTimeLicensing := false, includeInsuranceLines := true,
        inspectionType := InspectionType.noInspection } DEFAULTS).2.2.1 rfl⟩

/-- Claim C7: under the shipped configuration `calculate` reproduces the
spec scenarios exactly (hence within the ±0.01 tolerance): 75000 with 3
axles, first-time, no insurance, no inspection totals 4233.45; 1000000 with
1 axle gives duty 12000.00 and total 12614.45; price 0 with 3 axles,
insurance on and initial inspection gives duty 0.00 and total 2060.10. -/
theorem calculate_reference_scenarios :
    (calculate
        { priceExGst := 75000, axles := 3, includeGstInDuty := true, applyDutyCap := true,
          firstTimeLicensing := true, includeInsuranceLines := false,
          inspectionType := InspectionType.noInspection } DEFAULTS).totalOnRoad = 423345/100 ∧
    (calculate
        { priceExGst := 1000000, axles := 1, includeGstInDuty := true, applyDutyCap := true,
          firstTimeLicensing := true, includeInsuranceLines := false,
          inspectionType := InspectionType.noInspection } DEFAULTS).duty = 12000 ∧
    (calculate
        { priceExGst := 1000000, axles := 1, includeGstInDuty := true, applyDutyCap := true,
          firstTimeLicensing := true, includeInsuranceLines := false,
          inspectionType := InspectionType.noInspection } DEFAULTS).totalOnRoad = 1261445/100 ∧
    (calculate
        { priceExGst := 0, axles := 3, includeGstInDuty := true, applyDutyCap := true,
          firstTimeLicensing := true, includeInsuranceLines := true,
          inspectionType := InspectionType.initial } DEFAULTS).duty = 0 ∧
    (calculate
        { priceExGst := 0, axles := 3, includeGstInDuty := true, applyDutyCap := true,
          firstTimeLicensing := true, includeInsuranceLines := true,
          inspectionType := InspectionType.initial } DEFAULTS).totalOnRoad = 206010/100 := by
  refine ⟨?_, ?_, ?_, ?_, ?_⟩ <;>
    norm_num [calculate, fromCents, centsTotalOnRoad, centsRoadRegoSubtotal, centsDuty,
      centsDutyRaw, centsDutiable, centsGst, centsP, centsLicenceFee, centsInsuranceBase,
      centsInsuranceGst, centsInsuranceDuty, centsRecordingFee, centsPlateFee,
      centsInspectionFee, dutyCapCents, toCents, jsRound, DEFAULTS]

/-- Claim C8: under the shipped configuration, every output field of
`calculate` is non-negative whenever the price is non-negative and the axle
count lies in 1..9, for every toggle combination. -/
theorem calculate_output_nonneg (i : CalcInput) (hp : 0 ≤ i.priceExGst)
    (h1 : 1 ≤ i.axles) (h9 : i.axles ≤ 9) :
    0 ≤ (calculate i DEFAULTS).gst ∧ 0 ≤ (calculate i DEFAULTS).dutiable ∧
    0 ≤ (calculate i DEFAULTS).duty ∧ 0 ≤ (calculate i DEFAULTS).licenceFee ∧
    0 ≤ (calculate i DEFAULTS).insuranceBase ∧ 0 ≤ (calculate i DEFAULTS).insuranceGst ∧
    0 ≤ (calculate i DEFAULTS).insuranceDuty ∧ 0 ≤ (calculate i DEFAULTS).recordingFee ∧
    0 ≤ (calculate i DEFAULTS).plateFee ∧ 0 ≤ (calculate i DEFAULTS).inspectionFee ∧
    0 ≤ (calculate i DEFAULTS).roadRegoSubtotal ∧ 0 ≤ (calculate i DEFAULTS).totalOnRoad := by
  have hP : 0 ≤ centsP i := toCents_nonneg _ hp
  have hPq : (0 : ℚ) ≤ (centsP i : ℚ) := by exact_mod_cast hP
  have hgst : 0 ≤ centsGst i DEFAULTS := by
    unfold centsGst
    split
    · exact jsRound_nonneg _ (mul_nonneg hPq (by norm_num [DEFAULTS]))
    · exact le_refl 0
  have hdutiable : 0 ≤ centsDutiable i DEFAULTS := add_nonneg hP hgst
  have hdq : (0 : ℚ) ≤ (centsDutiable i DEFAULTS : ℚ) := by exact_mod_cast hdutiable
  have hdutyRaw : 0 ≤ centsDutyRaw i DEFAULTS :=
    jsRound_nonneg _ (mul_nonneg hdq (by norm_num [DEFAULTS]))
  have hcapC : 0 ≤ dutyCapCents DEFAULTS := by
    norm_num [dutyCapCents, toCents, jsRound, DEFAULTS]
  have hduty : 0 ≤ centsDuty i DEFAULTS := by
    unfold centsDuty
    split
    · exact le_min hdutyRaw hcapC
    · exact hdutyRaw
  have haxq : (0 : ℚ) ≤ (i.axles : ℚ) := by
    have : (0 : ℤ) ≤ i.axles := le_trans zero_le_one h1
    exact_mod_cast this
  have hlic : 0 ≤ centsLicenceFee i DEFAULTS := by
    unfold centsLicenceFee
    exact toCents_nonneg _ (mul_nonneg (by norm_num [DEFAULTS]) haxq)
  have hinsb : 0 ≤ centsInsuranceBase i DEFAULTS := by
    unfold centsInsuranceBase
    split
    · norm_num [toCents, jsRound, DEFAULTS]
    · exact le_refl 0
  have hinsbq : (0 : ℚ) ≤ (centsInsuranceBase i DEFAULTS : ℚ) := by exact_mod_cast hinsb
  have hinsg : 0 ≤ centsInsuranceGst i DEFAULTS := by
    unfold centsInsuranceGst
    split
    · exact jsRound_nonneg _ (mul_nonneg hinsbq (by norm_num [DEFAULTS]))
    · exact le_refl 0
  have hinsd : 0 ≤ centsInsuranceDuty i DEFAULTS := by
    unfold centsInsuranceDuty
    split
    · exact jsRound_nonneg _ (mul_nonneg hinsbq (by norm_num [DEFAULTS]))
    · exact le_refl 0
  have hrec : 0 ≤ centsRecordingFee i DEFAULTS := by
    unfold centsRecordingFee
    split
    · norm_num [toCents, jsRound, DEFAULTS]
    · exact le_refl 0
  have hplate : 0 ≤ centsPlateFee i DEFAULTS := by
    unfold centsPlateFee
    split
    · norm_num [toCents, jsRound, DEFAULTS]
    · exact le_refl 0
  have hinsp : 0 ≤ centsInspectionFee i DEFAULTS := by
    cases hIT : i.inspectionType <;>
      norm_num [centsInspectionFee, hIT, toCents, jsRound, DEFAULTS]
  have hsub : 0 ≤ centsRoadRegoSubtotal i DEFAULTS :=
    add_nonneg
      (add_nonneg (add_nonneg (add_nonneg (add_nonneg (add_nonneg hlic hinsb) hinsg) hinsd)
        hrec) hplate) hinsp
  have htot : 0 ≤ centsTotalOnRoad i DEFAULTS := add_nonneg hsub hduty
  exact ⟨fromCents_nonneg _ hgst, fromCents_nonneg _ hdutiable, fromCents_nonneg _ hduty,
    fromCents_nonneg _ hlic, fromCents_nonneg _ hinsb, fromCents_nonneg _ hinsg,
    fromCents_nonneg _ hinsd, fromCents_nonneg _ hrec, fromCents_nonneg _ hplate,
    fromCents_nonneg _ hinsp, fromCents_nonneg _ hsub, fromCents_nonneg _ htot⟩

/-- Witness for claim C8 at an in-domain input with every line enabled. -/
theorem calculate_output_nonneg_witness :
    0 ≤ (calculate
        { priceExGst := 75000, axles := 3, includeGstInDuty := true, applyDutyCap := true,
          firstTimeLicensing := true, includeInsuranceLines := true,
          inspectionType := InspectionType.initial } DEFAULTS).totalOnRoad :=
  (calculate_output_nonneg
      { priceExGst := 75000, axles := 3, includeGstInDuty := true, applyDutyCap := true,
        firstTimeLicensing := true, includeInsuranceLines := true,
        inspectionType := InspectionType.initial }
      (by norm_num) (by norm_num) (by norm_num)).2.2.2.2.2.2.2.2.2.2.2

/-- Claim C9: `calculate` is a total function — on every rational price and
integer axle count, in or out of the declared domain, it yields the record
determined by its arithmetic — and it clamps nothing itself: the raw price
and the raw axle count feed the formulas, and a negative price with an
out-of-range axle count of 15 still produces the arithmetically consistent
result (duty is the negative -16.50, the licence fee is the unclamped
15-axle amount 8580). -/
theorem calculate_total_no_clamping (i : CalcInput) (c : Config) :
    calculate i c =
      { gst := fromCents (centsGst i c), dutiable := fromCents (centsDutiable i c),
        duty := fromCents (centsDuty i c), licenceFee := fromCents (centsLicenceFee i c),
        insuranceBase := fromCents (centsInsuranceBase i c),
        insuranceGst := fromCents (centsInsuranceGst i c),
        insuranceDuty := fromCents (centsInsuranceDuty i c),
        recordingFee := fromCents (centsRecordingFee i c),
        plateFee := fromCents (centsPlateFee i c),
        inspectionFee := fromCents (centsInspectionFee i c),
        roadRegoSubtotal := fromCents (centsRoadRegoSubtotal i c),
        totalOnRoad := fromCents (centsTotalOnRoad i c) } ∧
    centsLicenceFee i c = toCents (c.licencePerAxle * (i.axles : ℚ)) ∧
    centsP i = toCents i.priceExGst ∧
    (calculate
        { priceExGst := -500, axles := 15, includeGstInDuty := true, applyDutyCap := true,
          firstTimeLicensing := true, includeInsuranceLines := true,
          inspectionType := InspectionType.initial } DEFAULTS).duty = -33/2 ∧
    (calculate
        { priceExGst := -500, axles := 15, includeGstInDuty := true, applyDutyCap := true,
          firstTimeLicensing := true, includeInsuranceLines := true,
          inspectionType := InspectionType.initial } DEFAULTS).licenceFee = 8580 := by
  refine ⟨rfl, rfl, rfl, ?_, ?_⟩ <;>
    norm_num [calculate, fromCents, centsDuty, centsDutyRaw, centsDutiable, centsGst, centsP,
      centsLicenceFee, dutyCapCents, toCents, jsRound, DEFAULTS]

/-- Claim C10: the `calculate` in src/src/App.tsx and the earlier copy in
src/unnamed/part_000 agree on every input and configuration, and their
shipped default configurations are identical. -/
theorem calculate_eq_legacy :
    (∀ (i : CalcInput) (c : Config), calculate i c = Legacy.calculate i c) ∧
    DEFAULTS = Legacy.DEFAULTS := by
  constructor
  · intro i c
    rfl
  · rfl

end HTAxleCalc
